import Mathlib

/-!
# Verification of the ssh-hop `SSHOrchestrator`

A shallow embedding of the multi-hop SSH orchestration core
(`src/core/SSHOrchestrator.ts` in the ssh-hop repository).  Transport
sessions and capability (SFTP) objects are modelled by numeric identifiers
allocated from a monotone counter carried in the orchestrator state;
network connection attempts are modelled as always succeeding, each one
recorded in an event trace together with the resolved endpoint descriptor
and the parent session it was forwarded through.  Lifecycle hooks are
modelled by presence flags (for `onBeforeConnect` / `onBeforeDisconnect`,
an `Option Bool` whose `some false` value represents a hook that throws);
hook invocations are recorded in the trace.
-/

namespace SSHHop

/-- Hop descriptor as supplied by the user (`SSHConfig` in `types`):
optional fields are `Option`s, mirroring absent TypeScript fields. -/
structure SSHConfig where
  name : String
  host : String
  port : Option Nat := none
  username : Option String := none
  password : Option String := none
  privateKey : Option String := none
  readyTimeout : Option Nat := none
deriving DecidableEq, Repr

/-- Chain-wide default credentials (`SSHDefaults`). -/
structure SSHDefaults where
  port : Option Nat := none
  username : Option String := none
  password : Option String := none
  privateKey : Option String := none
  readyTimeout : Option Nat := none
deriving DecidableEq, Repr

/-- Fully resolved connection descriptor (`ResolvedSSHConfig`). -/
structure ResolvedSSHConfig where
  name : String
  host : String
  port : Nat
  username : String
  password : Option String
  privateKey : Option String
  readyTimeout : Nat
deriving DecidableEq, Repr

/-- `SSHOrchestrator.resolveCredentials`: merge a hop descriptor with the
chain defaults (`this.config.defaults || {}`), each field falling through
`hop ?? defaults ?? builtin` (nullish coalescing). -/
def resolveCredentials (defaults? : Option SSHDefaults) (hop : SSHConfig) :
    ResolvedSSHConfig :=
  let d := defaults?.getD {}
  { name := hop.name
    host := hop.host
    port := hop.port.getD (d.port.getD 22)
    username := hop.username.getD (d.username.getD "")
    password := hop.password <|> d.password
    privateKey := hop.privateKey <|> d.privateKey
    readyTimeout := hop.readyTimeout.getD (d.readyTimeout.getD 60000) }

/-- Orchestrator configuration (`OrchestratorConfig`).  The hooks are
modelled by presence flags; `some false` on `onBeforeConnect` /
`onBeforeDisconnect` stands for a present hook that throws. -/
structure OrchestratorConfig where
  hops : List SSHConfig
  defaults : Option SSHDefaults := none
  onBeforeConnect : Option Bool := none
  onHopConnected : Bool := false
  onBeforeDisconnect : Option Bool := none
deriving DecidableEq, Repr

/-- A capability (SFTP client) object: `cid` is its identity (allocation
number), `session` the transport session it is bound to. -/
structure SFTPc where
  cid : Nat
  session : Nat
deriving DecidableEq, Repr

/-- Mutable state of one `SSHOrchestrator` instance: the positional
`tunnels` list, the capability cache `sftpClients` (a `Map` keyed by
endpoint name), the named-remote map `remotes`, and the allocation
counter for fresh session / capability identifiers. -/
structure OrchState where
  config : OrchestratorConfig
  tunnels : List Nat := []
  sftpClients : List (String × SFTPc) := []
  remotes : List (String × Nat) := []
  nextId : Nat := 0
deriving DecidableEq, Repr

/-- `Map.get` on an association list (first binding wins, as in a JS
`Map`, whose keys are unique). -/
def lookupA {α : Type} (m : List (String × α)) (k : String) : Option α :=
  match m.find? (fun p => p.1 == k) with
  | some p => some p.2
  | none => none

/-- `Map.set`: overwrite an existing binding in place, else append. -/
def setA {α : Type} (m : List (String × α)) (k : String) (v : α) :
    List (String × α) :=
  if (m.find? (fun p => p.1 == k)).isSome then
    m.map (fun p => if p.1 == k then (k, v) else p)
  else m ++ [(k, v)]

/-- Errors thrown by the orchestrator.  `typeError` stands for the
untyped JavaScript `TypeError` raised when reading `.name` of
`hops[hops.length - 1]` on an empty hop list; `hookError` for an
exception propagated out of a lifecycle hook. -/
inductive OrchError where
  | configError
  | hookError
  | hopNotFound (name : String)
  | tunnelNotEstablished (name : String)
  | sourceHopNotFound (name : String)
  | sourceTunnelNotEstablished (name : String)
  | remoteNotConnected (name : String)
  | typeError
deriving DecidableEq, Repr

/-- Observable events of a run: hook invocations, session openings
(direct or forwarded through a parent session), and session closings. -/
inductive Ev where
  | beforeConnectHook
  | hopConnectedHook (i : Nat)
  | directConnect (r : ResolvedSSHConfig) (sid : Nat)
  | forwardConnect (parent : Nat) (r : ResolvedSSHConfig) (sid : Nat)
  | closeRemote (name : String) (sid : Nat)
  | closeTunnel (sid : Nat)
  | beforeDisconnectHook
deriving DecidableEq, Repr

/-- `isConnected` getter: `tunnels.length === hops.length && hops.length > 0`. -/
def isConnected (s : OrchState) : Bool :=
  s.tunnels.length == s.config.hops.length && decide (0 < s.config.hops.length)

/-- The loop body of `connect` for hop indices `i ≥ 1`: the parent used
for forwarding is `this.tunnels[i - 1]` of the *live, already mutated*
tunnels array — including any sessions that were present before this
`connect` call.  A missing parent index would be a JS `TypeError`. -/
def connectLoop (d : Option SSHDefaults) (hook : Bool) :
    List (Nat × SSHConfig) → OrchState → List Ev →
    List Ev × OrchState × Option OrchError
  | [], s, evs => (evs, s, none)
  | (i, hop) :: rest, s, evs =>
    match s.tunnels[i - 1]? with
    | none => (evs, s, some .typeError)
    | some parent =>
      let r := resolveCredentials d hop
      let sid := s.nextId
      let s' := { s with tunnels := s.tunnels ++ [sid], nextId := s.nextId + 1 }
      let evs' := evs ++ [Ev.forwardConnect parent r sid] ++
        (if hook then [Ev.hopConnectedHook i] else [])
      connectLoop d hook rest s' evs'

/-- `SSHOrchestrator.connect`: throws `configError` on an empty hop list
(before running the pre-connect hook); else runs `onBeforeConnect`,
connects hop 0 **directly** and pushes its session onto `tunnels`, then
for each `i ≥ 1` forwards through `tunnels[i - 1]` and pushes, invoking
`onHopConnected(i, hops[i])` after each push.  Note that it always
starts from hop 0 and only ever appends. -/
def connect (s : OrchState) : List Ev × OrchState × Option OrchError :=
  match s.config.hops with
  | [] => ([], s, some .configError)
  | hop0 :: rest =>
    if s.config.onBeforeConnect = some false then
      ([Ev.beforeConnectHook], s, some .hookError)
    else
      let evs0 : List Ev :=
        if s.config.onBeforeConnect = some true then [Ev.beforeConnectHook] else []
      let r0 := resolveCredentials s.config.defaults hop0
      let sid0 := s.nextId
      let s1 := { s with tunnels := s.tunnels ++ [sid0], nextId := s.nextId + 1 }
      let evs1 := evs0 ++ [Ev.directConnect r0 sid0] ++
        (if s.config.onHopConnected then [Ev.hopConnectedHook 0] else [])
      connectLoop s.config.defaults s.config.onHopConnected
        (List.enumFrom 1 rest) s1 evs1

/-- The synchronous part of `handleDisconnection`: look the hop name up
in the hop list; when found, truncate `tunnels` to that index and clear
the whole capability cache; when not found, change nothing. -/
def handleDisconnectionPhase1 (hopName : String) (s : OrchState) : OrchState :=
  match s.config.hops.findIdx? (fun h => h.name == hopName) with
  | some i => { s with tunnels := s.tunnels.take i, sftpClients := [] }
  | none => s

/-- `SSHOrchestrator.handleDisconnection`: the truncation phase followed
by an unconditional `connect()` whose failure is caught and only logged. -/
def handleDisconnection (hopName : String) (s : OrchState) : List Ev × OrchState :=
  let s1 := handleDisconnectionPhase1 hopName s
  ((connect s1).1, (connect s1).2.1)

/-- `SSHOrchestrator.exec`: hop-name lookup against the hop list, then
the session at that index; success is modelled as the pair (session the
command runs on, command). -/
def exec (s : OrchState) (hopName cmd : String) :
    Except OrchError (Nat × String) :=
  match s.config.hops.findIdx? (fun h => h.name == hopName) with
  | none => .error (.hopNotFound hopName)
  | some i =>
    match s.tunnels[i]? with
    | none => .error (.tunnelNotEstablished hopName)
    | some t => .ok (t, cmd)

/-- `SSHOrchestrator.execJump`: `configError` on an empty hop list, else
`exec` on the name of the first hop. -/
def execJump (s : OrchState) (cmd : String) : Except OrchError (Nat × String) :=
  match s.config.hops with
  | [] => .error .configError
  | hop0 :: _ => exec s hop0.name cmd

/-- `SSHOrchestrator.execRemote`: `configError` on an empty hop list,
else `exec` on the name of the last hop. -/
def execRemote (s : OrchState) (cmd : String) : Except OrchError (Nat × String) :=
  match s.config.hops.getLast? with
  | none => .error .configError
  | some h => exec s h.name cmd

/-- `SSHOrchestrator.execOnRemote`: lookup in the named-remote map only. -/
def execOnRemote (s : OrchState) (remoteName cmd : String) :
    Except OrchError (Nat × String) :=
  match lookupA s.remotes remoteName with
  | none => .error (.remoteNotConnected remoteName)
  | some t => .ok (t, cmd)

/-- The `hopName || this.config.hops[this.config.hops.length - 1].name`
defaulting idiom: with an explicit name the default expression is never
evaluated; without one, an empty hop list makes `hops[-1]` undefined and
reading its `.name` raises a JS `TypeError`. -/
def resolveTarget (hopName? : Option String) (s : OrchState) :
    Except OrchError String :=
  match hopName? with
  | some n => .ok n
  | none =>
    match s.config.hops.getLast? with
    | some h => .ok h.name
    | none => .error .typeError

/-- `SSHOrchestrator.openShell`: default to the last hop, then the same
hop lookup as `exec`; success is the session the shell is opened on. -/
def openShell (s : OrchState) (hopName? : Option String) :
    Except OrchError Nat :=
  match resolveTarget hopName? s with
  | .error e => .error e
  | .ok target =>
    match s.config.hops.findIdx? (fun h => h.name == target) with
    | none => .error (.hopNotFound target)
    | some i =>
      match s.tunnels[i]? with
      | none => .error (.tunnelNotEstablished target)
      | some t => .ok t

/-- `SSHOrchestrator.getSFTP`: default the target to the name of the
last hop, return the cached client when present, else resolve against the
hop list (never the named-remote map), construct a fresh client bound to
the session of that hop, cache it under the name and return it. -/
def getSFTP (s : OrchState) (hopName? : Option String) :
    Except OrchError (SFTPc × OrchState) :=
  match resolveTarget hopName? s with
  | .error e => .error e
  | .ok target =>
    match lookupA s.sftpClients target with
    | some c => .ok (c, s)
    | none =>
      match s.config.hops.findIdx? (fun h => h.name == target) with
      | none => .error (.hopNotFound target)
      | some i =>
        match s.tunnels[i]? with
        | none => .error (.tunnelNotEstablished target)
        | some t =>
          let c : SFTPc := ⟨s.nextId, t⟩
          .ok (c, { s with sftpClients := setA s.sftpClients target c,
                           nextId := s.nextId + 1 })

/-- `SSHOrchestrator.getRemoteSFTP` is `getSFTP()` with no argument. -/
def getRemoteSFTP (s : OrchState) : Except OrchError (SFTPc × OrchState) :=
  getSFTP s none

/-- `SSHOrchestrator.getSFTPFor`: shared capability cache first, then
the named-remote map only (never the hop list). -/
def getSFTPFor (s : OrchState) (remoteName : String) :
    Except OrchError (SFTPc × OrchState) :=
  match lookupA s.sftpClients remoteName with
  | some c => .ok (c, s)
  | none =>
    match lookupA s.remotes remoteName with
    | none => .error (.remoteNotConnected remoteName)
    | some t =>
      let c : SFTPc := ⟨s.nextId, t⟩
      .ok (c, { s with sftpClients := setA s.sftpClients remoteName c,
                       nextId := s.nextId + 1 })

/-- `SSHOrchestrator.addRemote`: default the source hop to the last
name of the last
hop, resolve it to a live session, resolve the credentials of the new
descriptor, forward through the source session and store the new
session in the named-remote map under `name`. -/
def addRemote (s : OrchState) (name : String) (cfg : SSHConfig)
    (fromHop? : Option String) : Except OrchError (List Ev × OrchState) :=
  match resolveTarget fromHop? s with
  | .error e => .error e
  | .ok src =>
    match s.config.hops.findIdx? (fun h => h.name == src) with
    | none => .error (.sourceHopNotFound src)
    | some i =>
      match s.tunnels[i]? with
      | none => .error (.sourceTunnelNotEstablished src)
      | some parent =>
        let r := resolveCredentials s.config.defaults cfg
        let sid := s.nextId
        .ok ([Ev.forwardConnect parent r sid],
             { s with remotes := setA s.remotes name sid,
                      nextId := s.nextId + 1 })

/-- `SSHOrchestrator.disconnect`: run the pre-disconnect hook, close all
named remotes (map order) and clear the map, close the positional
sessions in reverse order, then clear `tunnels` and the capability
cache unconditionally. -/
def disconnect (s : OrchState) : List Ev × OrchState × Option OrchError :=
  if s.config.onBeforeDisconnect = some false then
    ([Ev.beforeDisconnectHook], s, some .hookError)
  else
    let evs0 : List Ev :=
      if s.config.onBeforeDisconnect = some true then [Ev.beforeDisconnectHook] else []
    let remoteEvs := s.remotes.map (fun p => Ev.closeRemote p.1 p.2)
    let tunnelEvs := s.tunnels.reverse.map (fun t => Ev.closeTunnel t)
    (evs0 ++ remoteEvs ++ tunnelEvs,
     { s with remotes := [], tunnels := [], sftpClients := [] }, none)

/-- One notification delivered to the handlers `waitForString` installs
on an interactive shell stream: an output chunk, an error-stream chunk,
or the close notification. -/
inductive StreamEvent where
  | out (s : String)
  | stderrData (s : String)
  | close
deriving DecidableEq, Repr

/-- Outcome of a `waitForString` promise after a sequence of stream
events: settled resolved / rejected, or still pending with the text
accumulated so far. -/
inductive WaitOutcome where
  | resolved (full : String)
  | stderrError (msg : String)
  | unexpectedClose
  | pending (acc : String)
deriving DecidableEq, Repr

/-- `needle.isPrefixOf hay` on character lists, written out. -/
def leadsWith : List Char → List Char → Bool
  | [], _ => true
  | _ :: _, [] => false
  | c :: cs, d :: ds => (c == d) && leadsWith cs ds

/-- JS `String.prototype.includes`: the needle occurs somewhere. -/
def containsSub (needle : List Char) : List Char → Bool
  | [] => leadsWith needle []
  | c :: t => leadsWith needle (c :: t) || containsSub needle t

/-- `hay.includes(needle)` on strings. -/
def strContains (hay needle : String) : Bool :=
  containsSub needle.toList hay.toList

/-- The event-processing core of `waitForString`: each output chunk is
appended to the running total and, when the total now contains the
expected string, the promise resolves with the whole total; any
error-stream chunk rejects with `STDERR: <chunk>`; a close notification
rejects with the unexpected-close error.  Once settled, later events are
ignored (a settled JS promise stays settled). -/
def waitRun (expected : String) : String → List StreamEvent → WaitOutcome
  | acc, [] => .pending acc
  | acc, .out s :: rest =>
    let acc' := acc ++ s
    if strContains acc' expected then .resolved acc'
    else waitRun expected acc' rest
  | _, .stderrData s :: _ => .stderrError ("STDERR: " ++ s)
  | _, .close :: _ => .unexpectedClose

/-- `SSHOrchestrator.waitForString` applied to a full event sequence. -/
def waitForString (expected : String) (events : List StreamEvent) : WaitOutcome :=
  waitRun expected "" events

/-- All identifiers stored in a state were allocated below its counter;
this holds for every state the orchestrator actually reaches. -/
def WFState (s : OrchState) : Prop :=
  (∀ t ∈ s.tunnels, t < s.nextId) ∧
  (∀ p ∈ s.sftpClients, (Prod.snd p).cid < s.nextId) ∧
  (∀ p ∈ s.remotes, Prod.snd p < s.nextId)

instance (s : OrchState) : Decidable (WFState s) := by
  unfold WFState; infer_instance

/-- Hop descriptor `A` of the three-hop example chain. -/
def hopA : SSHConfig := { name := "a", host := "hostA" }

/-- Hop descriptor `B` of the three-hop example chain. -/
def hopB : SSHConfig := { name := "b", host := "hostB" }

/-- Hop descriptor `C` of the three-hop example chain. -/
def hopC : SSHConfig := { name := "c", host := "hostC" }

/-- Fully connected three-hop chain `[A, B, C]` with sessions `0,1,2`
and an `onHopConnected` hook installed. -/
def chainABCState : OrchState :=
  { config := { hops := [hopA, hopB, hopC], onHopConnected := true }
    tunnels := [0, 1, 2]
    sftpClients := [("c", ⟨3, 2⟩)]
    remotes := []
    nextId := 4 }

/-- A single-hop chain whose only hop `a` is connected (session `0`),
with a named remote `r` (session `5`) and an empty capability cache. -/
def remoteRState : OrchState :=
  { config := { hops := [hopA] }
    tunnels := [0]
    sftpClients := []
    remotes := [("r", 5)]
    nextId := 6 }

/-- A single-hop connected chain with a named remote `db` (session `7`),
as produced by `addRemote "db"`. -/
def dbRemoteState : OrchState :=
  { config := { hops := [hopA] }
    tunnels := [0]
    sftpClients := []
    remotes := [("db", 7)]
    nextId := 8 }

/-- A single-hop connected chain with nothing cached yet. -/
def oneHopState : OrchState :=
  { config := { hops := [hopA] }
    tunnels := [0]
    sftpClients := []
    remotes := []
    nextId := 1 }

/-- A configuration with an empty hop list, never connected. -/
def emptyHopsState : OrchState :=
  { config := { hops := [], onBeforeConnect := some false } }

/-- `oneHopState` after its first `getSFTP "a"` call: the fresh
capability object `⟨1, 0⟩` is cached under `a`. -/
def oneHopCachedState : OrchState :=
  { config := { hops := [hopA] }
    tunnels := [0]
    sftpClients := [("a", ⟨1, 0⟩)]
    remotes := []
    nextId := 2 }

/-- `oneHopCachedState` after the disconnection handler ran for hop `a`
and the chain was rebuilt, then `getSFTP "a"` was called once more: a
fresh capability object `⟨3, 2⟩` is cached. -/
def reconnectedCachedState : OrchState :=
  { config := { hops := [hopA] }
    tunnels := [2]
    sftpClients := [("a", ⟨3, 2⟩)]
    remotes := []
    nextId := 4 }

theorem lookupA_append_self {α : Type} (m : List (String × α)) (k : String) (v : α)
    (h : lookupA m k = none) : lookupA (m ++ [(k, v)]) k = some v := by
  induction m with
  | nil => simp [lookupA]
  | cons p t ih =>
    by_cases hk : p.1 == k
    · simp [lookupA, List.find?, hk] at h
    · simp only [lookupA, List.find?, hk] at h ⊢
      exact ih h

theorem setA_of_none {α : Type} (m : List (String × α)) (k : String) (v : α)
    (h : lookupA m k = none) : setA m k v = m ++ [(k, v)] := by
  have hf : m.find? (fun p => p.1 == k) = none := by
    unfold lookupA at h
    cases hc : m.find? (fun p => p.1 == k) with
    | none => rfl
    | some p => rw [hc] at h; simp at h
  simp [setA, hf]

theorem lookupA_setA_of_none {α : Type} (m : List (String × α)) (k : String) (v : α)
    (h : lookupA m k = none) : lookupA (setA m k v) k = some v := by
  rw [setA_of_none m k v h]
  exact lookupA_append_self m k v h

theorem connectLoop_frame (d : Option SSHDefaults) (hk : Bool)
    (l : List (Nat × SSHConfig)) :
    ∀ (s : OrchState) (evs : List Ev),
      ((connectLoop d hk l s evs).2.1).sftpClients = s.sftpClients ∧
      ((connectLoop d hk l s evs).2.1).remotes = s.remotes ∧
      ((connectLoop d hk l s evs).2.1).config = s.config ∧
      s.nextId ≤ ((connectLoop d hk l s evs).2.1).nextId := by
  induction l with
  | nil => intro s evs; simp [connectLoop]
  | cons p t ih =>
    intro s evs
    obtain ⟨i, hop⟩ := p
    cases hp : s.tunnels[i - 1]? with
    | none => simp [connectLoop, hp]
    | some parent =>
      have h := ih { s with tunnels := s.tunnels ++ [s.nextId], nextId := s.nextId + 1 }
        (evs ++ [Ev.forwardConnect parent (resolveCredentials d hop) s.nextId] ++
          (if hk then [Ev.hopConnectedHook i] else []))
      simp only [connectLoop, hp] at h ⊢
      exact ⟨h.1, h.2.1, h.2.2.1, Nat.le_trans (Nat.le_succ _) h.2.2.2⟩

theorem connect_frame (s : OrchState) :
    ((connect s).2.1).sftpClients = s.sftpClients ∧
    ((connect s).2.1).remotes = s.remotes ∧
    ((connect s).2.1).config = s.config ∧
    s.nextId ≤ ((connect s).2.1).nextId := by
  unfold connect
  cases hh : s.config.hops with
  | nil => simp
  | cons hop0 rest =>
    by_cases hb : s.config.onBeforeConnect = some false
    · simp [hb]
    · simp only [hb, if_false]
      have h := connectLoop_frame s.config.defaults s.config.onHopConnected
        (List.enumFrom 1 rest)
        { s with tunnels := s.tunnels ++ [s.nextId], nextId := s.nextId + 1 }
        ((if s.config.onBeforeConnect = some true then [Ev.beforeConnectHook] else []) ++
          [Ev.directConnect (resolveCredentials s.config.defaults hop0) s.nextId] ++
          (if s.config.onHopConnected then [Ev.hopConnectedHook 0] else []))
      exact ⟨h.1, h.2.1, h.2.2.1, Nat.le_trans (Nat.le_succ _) h.2.2.2⟩

/-- C3: credential resolution is a deterministic total function of the
hop descriptor and the chain defaults with per-field precedence
hop field > chain defaults > built-in fallback (port 22, username the
empty string, ready-timeout 60000), and the two spec examples evaluate
as stated. -/
theorem resolveCredentials_precedence :
    (∀ (hop : SSHConfig) (d? : Option SSHDefaults),
      ((∀ p, hop.port = some p → (resolveCredentials d? hop).port = p) ∧
       (hop.port = none → ∀ p, (d?.getD {}).port = some p →
          (resolveCredentials d? hop).port = p) ∧
       (hop.port = none → (d?.getD {}).port = none →
          (resolveCredentials d? hop).port = 22)) ∧
      ((∀ u, hop.username = some u → (resolveCredentials d? hop).username = u) ∧
       (hop.username = none → ∀ u, (d?.getD {}).username = some u →
          (resolveCredentials d? hop).username = u) ∧
       (hop.username = none → (d?.getD {}).username = none →
          (resolveCredentials d? hop).username = "")) ∧
      ((∀ rt, hop.readyTimeout = some rt → (resolveCredentials d? hop).readyTimeout = rt) ∧
       (hop.readyTimeout = none → ∀ rt, (d?.getD {}).readyTimeout = some rt →
          (resolveCredentials d? hop).readyTimeout = rt) ∧
       (hop.readyTimeout = none → (d?.getD {}).readyTimeout = none →
          (resolveCredentials d? hop).readyTimeout = 60000))) ∧
    (resolveCredentials (some { username := some "b", port := some 10 })
        { name := "hop", host := "host", username := some "a" } =
      { name := "hop", host := "host", port := 10, username := "a",
        password := none, privateKey := none, readyTimeout := 60000 }) ∧
    (resolveCredentials none { name := "hop", host := "host" } =
      { name := "hop", host := "host", port := 22, username := "",
        password := none, privateKey := none, readyTimeout := 60000 }) := by
  refine ⟨?_, rfl, rfl⟩
  intro hop d?
  refine ⟨⟨?_, ?_, ?_⟩, ⟨?_, ?_, ?_⟩, ⟨?_, ?_, ?_⟩⟩ <;> intros <;>
    simp_all [resolveCredentials]

/-- Witness for C3 at the two concrete spec examples. -/
theorem resolveCredentials_precedence_witness :
    (resolveCredentials (some { username := some "b", port := some 10 })
      { name := "hop", host := "host", username := some "a" }).username = "a" ∧
    (resolveCredentials (some { username := some "b", port := some 10 })
      { name := "hop", host := "host", username := some "a" }).port = 10 ∧
    (resolveCredentials none { name := "hop", host := "host" }).port = 22 :=
  ⟨(resolveCredentials_precedence.1
      { name := "hop", host := "host", username := some "a" }
      (some { username := some "b", port := some 10 })).2.1.1 "a" rfl,
   (resolveCredentials_precedence.1
      { name := "hop", host := "host", username := some "a" }
      (some { username := some "b", port := some 10 })).1.2.1 rfl 10 rfl,
   (resolveCredentials_precedence.1
      { name := "hop", host := "host" } none).1.2.2 rfl rfl⟩

/-- C4: with an empty hop list, `connect` fails with the configuration
error before the pre-connect hook runs and before any network activity
(empty event trace, state unchanged), `execJump` and `execRemote` fail
with the same configuration error, and `isConnected` is false. -/
theorem emptyHops_config_error (s : OrchState) (h : s.config.hops = [])
    (cmd : String) :
    connect s = ([], s, some OrchError.configError) ∧
    execJump s cmd = .error .configError ∧
    execRemote s cmd = .error .configError ∧
    isConnected s = false := by
  refine ⟨?_, ?_, ?_, ?_⟩ <;>
    simp [connect, execJump, execRemote, isConnected, h]

/-- Witness for C4 at a concrete empty-hop configuration whose
pre-connect hook would throw if it were ever invoked. -/
theorem emptyHops_config_error_witness :
    connect emptyHopsState = ([], emptyHopsState, some OrchError.configError) ∧
    execJump emptyHopsState "ls" = .error .configError ∧
    execRemote emptyHopsState "ls" = .error .configError ∧
    isConnected emptyHopsState = false :=
  emptyHops_config_error emptyHopsState rfl "ls"

/-- C5: `exec` consults only the hop table — failing with the
hop-not-found error when no hop has the name, whatever the named-remote
map contains, with the not-established error when the hop has no live
session at its index, and executing on the session at that index
otherwise — while `execOnRemote` consults only the named-remote table,
failing with the remote-not-connected error exactly when the name is
absent from that map. -/
theorem exec_namespaces_disjoint (s : OrchState) (name cmd : String) :
    (s.config.hops.findIdx? (fun h => h.name == name) = none →
      exec s name cmd = .error (.hopNotFound name)) ∧
    (∀ i, s.config.hops.findIdx? (fun h => h.name == name) = some i →
      s.tunnels[i]? = none →
      exec s name cmd = .error (.tunnelNotEstablished name)) ∧
    (∀ i t, s.config.hops.findIdx? (fun h => h.name == name) = some i →
      s.tunnels[i]? = some t → exec s name cmd = .ok (t, cmd)) ∧
    (execOnRemote s name cmd = .error (.remoteNotConnected name) ↔
      lookupA s.remotes name = none) ∧
    (∀ t, lookupA s.remotes name = some t →
      execOnRemote s name cmd = .ok (t, cmd)) := by
  refine ⟨?_, ?_, ?_, ?_, ?_⟩
  · intro h; simp [exec, h]
  · intro i hi ht; simp [exec, hi, ht]
  · intro i t hi ht; simp [exec, hi, ht]
  · cases hl : lookupA s.remotes name <;> simp [execOnRemote, hl]
  · intro t ht; simp [execOnRemote, ht]

/-- Witness for C5: with a named remote `db` on a chain whose only hop
is `a`, `exec "db"` fails with hop-not-found even though the remote
exists, and `execOnRemote "db"` succeeds. -/
theorem exec_namespaces_disjoint_witness :
    exec dbRemoteState "db" "ls" = .error (.hopNotFound "db") ∧
    execOnRemote dbRemoteState "db" "ls" = .ok (7, "ls") ∧
    lookupA dbRemoteState.remotes "db" = some 7 :=
  ⟨(exec_namespaces_disjoint dbRemoteState "db" "ls").1 rfl,
   (exec_namespaces_disjoint dbRemoteState "db" "ls").2.2.2.2 7 rfl,
   rfl⟩

/-- C10: with zero hops configured, `openShell`, `getSFTP` (hence
`getRemoteSFTP`) and `addRemote` called without an explicit hop name do
not fail with the configuration error: the default-to-last-hop
computation reads the `name` field of the undefined `hops[length - 1]`,
so each call fails with the untyped runtime type error. -/
theorem zeroHops_defaulting_type_error (s : OrchState)
    (h : s.config.hops = []) (cfg : SSHConfig) (name : String) :
    openShell s none = .error .typeError ∧
    getSFTP s none = .error .typeError ∧
    getRemoteSFTP s = .error .typeError ∧
    addRemote s name cfg none = .error .typeError ∧
    OrchError.typeError ≠ OrchError.configError := by
  refine ⟨?_, ?_, ?_, ?_, by decide⟩ <;>
    simp [openShell, getSFTP, getRemoteSFTP, addRemote, resolveTarget, h]

/-- Witness for C10 at the concrete empty-hop state. -/
theorem zeroHops_defaulting_type_error_witness :
    openShell emptyHopsState none = .error .typeError ∧
    getSFTP emptyHopsState none = .error .typeError ∧
    getRemoteSFTP emptyHopsState = .error .typeError ∧
    addRemote emptyHopsState "n" hopA none = .error .typeError ∧
    OrchError.typeError ≠ OrchError.configError :=
  zeroHops_defaulting_type_error emptyHopsState rfl hopA "n"

/-- C7: `disconnect` (when the pre-disconnect hook does not throw)
closes every named-remote session and then every positional session in
strict reverse order, clears the named-remote map, the sessions list
and the capability cache unconditionally, and never fails; on a
never-connected chain with no remotes and no pre-disconnect hook it
produces no close events, reports no error, and leaves the
fully-connected predicate false. -/
theorem disconnect_teardown (s : OrchState)
    (h : s.config.onBeforeDisconnect ≠ some false) :
    (disconnect s).1 =
      (if s.config.onBeforeDisconnect = some true
        then [Ev.beforeDisconnectHook] else []) ++
      s.remotes.map (fun p => Ev.closeRemote p.1 p.2) ++
      s.tunnels.reverse.map (fun t => Ev.closeTunnel t) ∧
    (disconnect s).2.1.remotes = [] ∧
    (disconnect s).2.1.tunnels = [] ∧
    (disconnect s).2.1.sftpClients = [] ∧
    (disconnect s).2.2 = none ∧
    isConnected (disconnect s).2.1 = false ∧
    (s.tunnels = [] → s.remotes = [] → s.config.onBeforeDisconnect = none →
      disconnect s =
        ([], { s with remotes := [], tunnels := [], sftpClients := [] }, none)) := by
  refine ⟨?_, ?_, ?_, ?_, ?_, ?_, ?_⟩ <;>
    simp only [disconnect, if_neg h]
  · simp only [isConnected, List.length_nil]
    cases hh : s.config.hops.length with
    | zero => simp
    | succ n => simp
  · intro h1 h2 h3
    simp [h1, h2, h3]

/-- Witness for C7: tearing down the connected one-hop chain with the
`db` remote, and the never-connected empty chain. -/
theorem disconnect_teardown_witness :
    (disconnect dbRemoteState).1 =
      [Ev.closeRemote "db" 7, Ev.closeTunnel 0] ∧
    (disconnect dbRemoteState).2.1.remotes = [] ∧
    isConnected (disconnect dbRemoteState).2.1 = false ∧
    disconnect emptyHopsState =
      ([], { emptyHopsState with remotes := [], tunnels := [], sftpClients := [] },
       none) :=
  ⟨(disconnect_teardown dbRemoteState (by decide)).1,
   (disconnect_teardown dbRemoteState (by decide)).2.1,
   (disconnect_teardown dbRemoteState (by decide)).2.2.2.2.2.1,
   (disconnect_teardown emptyHopsState (by decide)).2.2.2.2.2.2 rfl rfl rfl⟩

/-- C9: when the disconnection handler runs for a name that is not any
hop name — as it does for every named-remote session created by
`addRemote`, whose handlers pass the name of the remote descriptor —
the truncation phase changes nothing (sessions, capability cache and
named-remote map are untouched, the dead remote entry stays in the
map), and `connect()` is nevertheless invoked on the unchanged
positional chain. -/
theorem handleDisconnection_nonhop_frame (s : OrchState) (name : String)
    (h : s.config.hops.findIdx? (fun hp => hp.name == name) = none) :
    handleDisconnectionPhase1 name s = s ∧
    handleDisconnection name s = ((connect s).1, (connect s).2.1) ∧
    (handleDisconnection name s).2.sftpClients = s.sftpClients ∧
    (handleDisconnection name s).2.remotes = s.remotes ∧
    (∀ sid, lookupA s.remotes name = some sid →
      lookupA (handleDisconnection name s).2.remotes name = some sid) := by
  have h1 : handleDisconnectionPhase1 name s = s := by
    simp [handleDisconnectionPhase1, h]
  have h2 : handleDisconnection name s = ((connect s).1, (connect s).2.1) := by
    simp [handleDisconnection, h1]
  refine ⟨h1, h2, ?_, ?_, ?_⟩
  · rw [h2]; exact (connect_frame s).1
  · rw [h2]; exact (connect_frame s).2.1
  · intro sid hsid
    rw [h2]
    simpa [(connect_frame s).2.1] using hsid

/-- Witness for C9: the remote `r` (not a hop name) triggers the
handler; the dead entry survives and the chain reconnect runs. -/
theorem handleDisconnection_nonhop_frame_witness :
    handleDisconnectionPhase1 "r" remoteRState = remoteRState ∧
    (handleDisconnection "r" remoteRState).2.remotes = [("r", 5)] ∧
    lookupA (handleDisconnection "r" remoteRState).2.remotes "r" = some 5 :=
  ⟨(handleDisconnection_nonhop_frame remoteRState "r" rfl).1,
   (handleDisconnection_nonhop_frame remoteRState "r" rfl).2.2.2.1,
   (handleDisconnection_nonhop_frame remoteRState "r" rfl).2.2.2.2 5 rfl⟩

/-- C1 (evaluation at the failing input): on the fully connected
three-hop chain `[A, B, C]` with sessions `[0, 1, 2]`, an error on hop
`b` truncates the sessions to `[0]` and clears the capability cache as
claimed, but the reconnect then re-runs `connect()` from hop 0: a fresh
hop-0 session `4` is appended after the surviving prefix, hop `b` is
forwarded through `tunnels[0]` and hop `c` through `tunnels[1]` — the
*new hop-0 session* — the post-hop-connected hook fires for indices
0, 1 and 2 (index 0 included), and the final sessions list `[0, 4, 5, 6]`
has length 4, no longer index-aligned with the 3 hops, leaving the
chain not fully connected. -/
theorem reconnect_midchain_misaligned :
    handleDisconnectionPhase1 "b" chainABCState =
      { chainABCState with tunnels := [0], sftpClients := [] } ∧
    (handleDisconnection "b" chainABCState).2.tunnels = [0, 4, 5, 6] ∧
    (handleDisconnection "b" chainABCState).2.tunnels.length ≠
      chainABCState.config.hops.length ∧
    (handleDisconnection "b" chainABCState).1 =
      [Ev.directConnect (resolveCredentials none hopA) 4,
       Ev.hopConnectedHook 0,
       Ev.forwardConnect 0 (resolveCredentials none hopB) 5,
       Ev.hopConnectedHook 1,
       Ev.forwardConnect 4 (resolveCredentials none hopC) 6,
       Ev.hopConnectedHook 2] ∧
    (handleDisconnection "b" chainABCState).2.sftpClients = [] ∧
    isConnected (handleDisconnection "b" chainABCState).2 = false := by
  refine ⟨by decide, by decide, by decide, by decide, by decide, by decide⟩

/-- C2 (counterexample): with the capability cache empty, `"r"` absent
from the hop list but present in the named-remote map with live session
5, `getSFTP "r"` fails with the hop-not-found error instead of falling
back to the named-remote map and returning a capability object bound to
session 5, as the claim would require. -/
theorem getSFTP_no_remote_fallback_cex :
    lookupA remoteRState.sftpClients "r" = none ∧
    remoteRState.config.hops.findIdx? (fun h => h.name == "r") = none ∧
    lookupA remoteRState.remotes "r" = some 5 ∧
    getSFTP remoteRState (some "r") = .error (.hopNotFound "r") := by
  refine ⟨rfl, rfl, rfl, rfl⟩

/-- C2 (amended): the two capability getters keep the namespaces
separate — each first returns the object cached under the name; on a
cache miss `getSFTP` resolves the name against hop positions only
(failing hop-not-found when no hop has the name, even if a named remote
does, or not-established when the hop has no session), while
`getSFTPFor` consults only the named-remote map (failing
remote-not-connected when absent); on success each constructs a fresh
capability object bound to the live session of that endpoint, caches it
under the name, and returns it. -/
theorem capability_getters_characterization (s : OrchState) (name : String) :
    (∀ c, lookupA s.sftpClients name = some c →
      getSFTP s (some name) = .ok (c, s) ∧ getSFTPFor s name = .ok (c, s)) ∧
    (lookupA s.sftpClients name = none →
      ((s.config.hops.findIdx? (fun h => h.name == name) = none →
         getSFTP s (some name) = .error (.hopNotFound name)) ∧
       (∀ i, s.config.hops.findIdx? (fun h => h.name == name) = some i →
         s.tunnels[i]? = none →
         getSFTP s (some name) = .error (.tunnelNotEstablished name)) ∧
       (∀ i t, s.config.hops.findIdx? (fun h => h.name == name) = some i →
         s.tunnels[i]? = some t →
         getSFTP s (some name) =
           .ok (⟨s.nextId, t⟩,
                { s with sftpClients := setA s.sftpClients name ⟨s.nextId, t⟩,
                         nextId := s.nextId + 1 })) ∧
       (lookupA s.remotes name = none →
         getSFTPFor s name = .error (.remoteNotConnected name)) ∧
       (∀ t, lookupA s.remotes name = some t →
         getSFTPFor s name =
           .ok (⟨s.nextId, t⟩,
                { s with sftpClients := setA s.sftpClients name ⟨s.nextId, t⟩,
                         nextId := s.nextId + 1 })))) := by
  refine ⟨?_, ?_⟩
  · intro c hc
    exact ⟨by simp [getSFTP, resolveTarget, hc], by simp [getSFTPFor, hc]⟩
  · intro hc
    refine ⟨?_, ?_, ?_, ?_, ?_⟩
    · intro hf; simp [getSFTP, resolveTarget, hc, hf]
    · intro i hf ht; simp [getSFTP, resolveTarget, hc, hf, ht]
    · intro i t hf ht; simp [getSFTP, resolveTarget, hc, hf, ht]
    · intro hr; simp [getSFTPFor, hc, hr]
    · intro t hr; simp [getSFTPFor, hc, hr]

/-- Witness for the amended C2: the cached object for `c` is returned
as-is on the three-hop chain; on the one-hop chain with remote `r`,
`getSFTP "r"` fails hop-not-found while `getSFTPFor "r"` constructs,
caches and returns a fresh capability bound to session 5. -/
theorem capability_getters_characterization_witness :
    getSFTP chainABCState (some "c") = .ok (⟨3, 2⟩, chainABCState) ∧
    getSFTP remoteRState (some "r") = .error (.hopNotFound "r") ∧
    getSFTPFor remoteRState "r" =
      .ok (⟨6, 5⟩,
           { remoteRState with
               sftpClients := setA remoteRState.sftpClients "r" ⟨6, 5⟩,
               nextId := 7 }) :=
  ⟨((capability_getters_characterization chainABCState "c").1 ⟨3, 2⟩ rfl).1,
   ((capability_getters_characterization remoteRState "r").2 rfl).1 rfl,
   ((capability_getters_characterization remoteRState "r").2 rfl).2.2.2.2 5 rfl⟩

theorem waitRun_append (expected : String) (pre : List StreamEvent) :
    ∀ (acc acc' : String) (rest : List StreamEvent),
      waitRun expected acc pre = .pending acc' →
      waitRun expected acc (pre ++ rest) = waitRun expected acc' rest := by
  induction pre with
  | nil =>
    intro acc acc' rest h
    simp [waitRun] at h
    simp [h]
  | cons e p ih =>
    intro acc acc' rest h
    cases e with
    | out s =>
      by_cases hc : strContains (acc ++ s) expected
      · simp [waitRun, hc] at h
      · simp only [waitRun, hc, if_false, List.cons_append] at h ⊢
        simp only [Bool.false_eq_true, if_false]
        exact ih _ _ _ h
    | stderrData s => simp [waitRun] at h
    | close => simp [waitRun] at h

/-- C8: `waitForString` accumulates output chunks and resolves with the
full accumulated text as soon as the running total contains the
expected substring — on the spec example it resolves with
`booting READY now` — while an error-stream chunk arriving while the
wait is still pending rejects it with an error carrying that data, and
a close notification arriving while still pending rejects it with the
unexpected-close error. -/
theorem waitForString_spec :
    (waitForString "READY" [.out "boo", .out "ting READY now"] =
      .resolved "booting READY now") ∧
    (∀ (expected : String) (pre : List StreamEvent) (acc acc' s : String)
        (rest : List StreamEvent),
      waitRun expected acc pre = .pending acc' →
      strContains (acc' ++ s) expected = true →
      waitRun expected acc (pre ++ .out s :: rest) = .resolved (acc' ++ s)) ∧
    (∀ (expected : String) (pre : List StreamEvent) (acc acc' s : String)
        (rest : List StreamEvent),
      waitRun expected acc pre = .pending acc' →
      waitRun expected acc (pre ++ .stderrData s :: rest) =
        .stderrError ("STDERR: " ++ s)) ∧
    (∀ (expected : String) (pre : List StreamEvent) (acc acc' : String)
        (rest : List StreamEvent),
      waitRun expected acc pre = .pending acc' →
      waitRun expected acc (pre ++ .close :: rest) = .unexpectedClose) := by
  refine ⟨by decide, ?_, ?_, ?_⟩
  · intro expected pre acc acc' s rest h hc
    rw [waitRun_append expected pre acc acc' (.out s :: rest) h]
    simp [waitRun, hc]
  · intro expected pre acc acc' s rest h
    rw [waitRun_append expected pre acc acc' (.stderrData s :: rest) h]
    simp [waitRun]
  · intro expected pre acc acc' rest h
    rw [waitRun_append expected pre acc acc' (.close :: rest) h]
    simp [waitRun]

/-- Witness for C8 at the spec examples: the two output chunks resolve
with the concatenated text, and an error-stream chunk arriving after
`boo` (before the target has appeared) rejects with its data. -/
theorem waitForString_spec_witness :
    waitRun "READY" "" ([.out "boo"] ++ .out "ting READY now" :: []) =
      .resolved "booting READY now" ∧
    waitRun "READY" "" ([.out "boo"] ++ .stderrData "oops" :: []) =
      .stderrError ("STDERR: " ++ "oops") ∧
    waitRun "READY" "" ([.out "boo"] ++ .close :: []) = .unexpectedClose :=
  ⟨waitForString_spec.2.1 "READY" [.out "boo"] "" "boo" "ting READY now" []
     (by decide) (by decide),
   waitForString_spec.2.2.1 "READY" [.out "boo"] "" "boo" "oops" [] (by decide),
   waitForString_spec.2.2.2 "READY" [.out "boo"] "" "boo" [] (by decide)⟩

theorem lookupA_mem {α : Type} (m : List (String × α)) (k : String) (v : α)
    (h : lookupA m k = some v) : ∃ p ∈ m, p.2 = v := by
  unfold lookupA at h
  cases hf : m.find? (fun p => p.1 == k) with
  | none => rw [hf] at h; simp at h
  | some p =>
    rw [hf] at h
    exact ⟨p, List.mem_of_find?_eq_some hf, by injection h⟩

theorem getSFTP_ok_cases (s : OrchState) (x : String) (c : SFTPc)
    (s' : OrchState) (h : getSFTP s (some x) = .ok (c, s')) :
    (lookupA s.sftpClients x = some c ∧ s' = s) ∨
    (lookupA s.sftpClients x = none ∧ c.cid = s.nextId ∧
     s'.sftpClients = setA s.sftpClients x c ∧ s'.nextId = s.nextId + 1) := by
  cases hc : lookupA s.sftpClients x with
  | some c0 =>
    simp only [getSFTP, resolveTarget, hc, Except.ok.injEq, Prod.mk.injEq] at h
    exact Or.inl ⟨congrArg some h.1, h.2.symm⟩
  | none =>
    cases hf : s.config.hops.findIdx? (fun hh => hh.name == x) with
    | none => simp [getSFTP, resolveTarget, hc, hf] at h
    | some i =>
      cases ht : s.tunnels[i]? with
      | none => simp [getSFTP, resolveTarget, hc, hf, ht] at h
      | some tn =>
        simp only [getSFTP, resolveTarget, hc, hf, ht,
          Except.ok.injEq, Prod.mk.injEq] at h
        refine Or.inr ⟨rfl, ?_, ?_, ?_⟩
        · rw [← h.1]
        · rw [← h.2, ← h.1]
        · rw [← h.2]

theorem cached_cid_lt_of_WF (s : OrchState) (x : String) (c : SFTPc)
    (hw : WFState s) (hc : lookupA s.sftpClients x = some c) :
    c.cid < s.nextId := by
  obtain ⟨p, hp, hv⟩ := lookupA_mem _ _ _ hc
  have := hw.2.1 p hp
  rw [hv] at this
  exact this

/-- C6: for a live endpoint name, two consecutive capability-getter
calls with no intervening teardown return the identity-same cached
object; after the endpoint is torn down and rebuilt via the
disconnection handler — which clears the whole capability cache — the
next call returns a different, freshly constructed object. -/
theorem getSFTP_identity_then_fresh_after_reconnect :
    (∀ (s : OrchState) (x : String) (c : SFTPc) (s' : OrchState),
      getSFTP s (some x) = .ok (c, s') → getSFTP s' (some x) = .ok (c, s')) ∧
    (∀ (s : OrchState) (x nm : String) (c c' : SFTPc) (s' t'' : OrchState),
      WFState s →
      getSFTP s (some x) = .ok (c, s') →
      (s'.config.hops.findIdx? (fun h => h.name == nm)).isSome = true →
      getSFTP (handleDisconnection nm s').2 (some x) = .ok (c', t'') →
      c'.cid ≠ c.cid) := by
  constructor
  · intro s x c s' h
    rcases getSFTP_ok_cases s x c s' h with ⟨hc, rfl⟩ | ⟨hc, _, hsftp, _⟩
    · simp [getSFTP, resolveTarget, hc]
    · have hc' : lookupA s'.sftpClients x = some c := by
        rw [hsftp]; exact lookupA_setA_of_none _ _ _ hc
      simp [getSFTP, resolveTarget, hc']
  · intro s x nm c c' s' t'' hw h hfound h'
    have hclt : c.cid < s'.nextId := by
      rcases getSFTP_ok_cases s x c s' h with ⟨hc, heq⟩ | ⟨_, hcid, _, hnext⟩
      · rw [heq]; exact cached_cid_lt_of_WF s x c hw hc
      · omega
    obtain ⟨i, hi⟩ := Option.isSome_iff_exists.mp hfound
    have hph : handleDisconnectionPhase1 nm s' =
        { s' with tunnels := s'.tunnels.take i, sftpClients := [] } := by
      simp [handleDisconnectionPhase1, hi]
    have h1 : (handleDisconnection nm s').2 =
        (connect (handleDisconnectionPhase1 nm s')).2.1 := rfl
    have hsc : (handleDisconnection nm s').2.sftpClients = [] := by
      rw [h1, (connect_frame _).1, hph]
    have hnx : s'.nextId ≤ (handleDisconnection nm s').2.nextId := by
      have hmono := (connect_frame (handleDisconnectionPhase1 nm s')).2.2.2
      rw [h1]
      have : (handleDisconnectionPhase1 nm s').nextId = s'.nextId := by
        rw [hph]
      rw [← this]
      exact hmono
    rcases getSFTP_ok_cases _ x c' t'' h' with ⟨hc', _⟩ | ⟨_, hcid', _, _⟩
    · rw [hsc] at hc'
      simp [lookupA] at hc'
    · omega

/-- Witness for C6 on the one-hop chain: the second call returns the
cached object `⟨1, 0⟩`; after the handler rebuilds the chain, the next
call constructs `⟨3, 2⟩`, a different object. -/
theorem getSFTP_identity_then_fresh_after_reconnect_witness :
    getSFTP oneHopCachedState (some "a") = .ok (⟨1, 0⟩, oneHopCachedState) ∧
    SFTPc.cid ⟨3, 2⟩ ≠ SFTPc.cid ⟨1, 0⟩ :=
  ⟨getSFTP_identity_then_fresh_after_reconnect.1 oneHopState "a" ⟨1, 0⟩
     oneHopCachedState (by rfl),
   getSFTP_identity_then_fresh_after_reconnect.2 oneHopState "a" "a" ⟨1, 0⟩
     ⟨3, 2⟩ oneHopCachedState reconnectedCachedState (by decide) (by rfl)
     (by decide) (by rfl)⟩

end SSHHop
